import Mathlib

/-!
Verification of the pipeline Manager / Worker pool / retry orchestration of the
concurrent data pipeline repository.

The Go source is embedded shallowly:

* `internal/pipeline/worker.go` — `Job`, `Message`, `ProcessingResult`,
  `Worker.handleResult` (retry decision, delayed resubmission, terminal routing).
* the pipeline manager file (package `pipeline`) — `Manager` state, `NewManager`,
  `Start`, `Stop`, `SubmitMessage`, `SubmitBatch`, `SubmitJob`,
  `resultHandler`, `handleSuccessfulResult`, `handleFailedResult`,
  `updateMetrics`, `GetMetrics`.
* the metrics collector file (package `metrics`) — `Collector` and its methods.

Goroutine scheduling is made explicit: channels become lists, the cancellable
context becomes a `cancelled` flag, the detached retry goroutine
(`go func() { time.Sleep(...); m.SubmitJob(retryJob) }()`) becomes an entry in a
`pendingRetries` list that a separate `fireRetry` step consumes.  Wall-clock
instants are natural numbers; the hour bucket used for sink keys is a record of
the calendar fields that `time.Now().Format("2006/01/02/15")` renders.
-/

namespace Pipeline

/-- A data message, from `worker.go` (`Message`): ID, source kind, opaque
payload bytes (modelled as a string) and string headers. -/
structure Message where
  id : String
  source : String
  data : String
  headers : List (String × String)
deriving Repr, DecidableEq

/-- A unit of work, from `worker.go` (`Job`).  The Go field `Context`
carries only cancellation, which the manager state models globally, so it is
not repeated here. -/
structure Job where
  id : String
  message : Message
  attempt : Nat
deriving Repr, DecidableEq

/-- Result of processing one attempt, from `worker.go` (`ProcessingResult`).
Timestamps and durations are naturals (nanoseconds). -/
structure ProcessingResult where
  jobID : String
  messageID : String
  success : Bool
  error : String
  processedAt : Nat
  processingDuration : Nat
  outputData : String
  metadata : List (String × String)
deriving Repr, DecidableEq

/-- The retry job built in `Worker.handleResult` (worker.go lines 315-320):
same `ID`, same `Message`, attempt incremented by one. -/
def retryJobOf (job : Job) : Job :=
  { job with attempt := job.attempt + 1 }

/-- The metrics collector state, from the metrics package (`Collector`).
Counters are naturals; `totalProcessingTime` is in nanoseconds; `startTime`
and `lastResetTime` are wall-clock instants. -/
structure Collector where
  jobsSubmitted : Nat
  jobsSucceeded : Nat
  jobsFailed : Nat
  totalProcessingTime : Nat
  processedJobs : Nat
  startTime : Nat
  lastResetTime : Nat
deriving Repr, DecidableEq

/-- `metrics.NewCollector`: zero counters, both time markers set to now. -/
def NewCollector (now : Nat) : Collector :=
  { jobsSubmitted := 0, jobsSucceeded := 0, jobsFailed := 0
  , totalProcessingTime := 0, processedJobs := 0
  , startTime := now, lastResetTime := now }

/-- `Collector.IncrementJobsSubmitted`. -/
def Collector.IncrementJobsSubmitted (c : Collector) : Collector :=
  { c with jobsSubmitted := c.jobsSubmitted + 1 }

/-- `Collector.IncrementJobsSucceeded`. -/
def Collector.IncrementJobsSucceeded (c : Collector) : Collector :=
  { c with jobsSucceeded := c.jobsSucceeded + 1 }

/-- `Collector.IncrementJobsFailed`. -/
def Collector.IncrementJobsFailed (c : Collector) : Collector :=
  { c with jobsFailed := c.jobsFailed + 1 }

/-- `Collector.RecordProcessingDuration`. -/
def Collector.RecordProcessingDuration (c : Collector) (d : Nat) : Collector :=
  { c with totalProcessingTime := c.totalProcessingTime + d
         , processedJobs := c.processedJobs + 1 }

/-- `Collector.Reset` (takes the current instant for `lastResetTime`;
`startTime` is not written by the Go method). -/
def Collector.Reset (c : Collector) (now : Nat) : Collector :=
  { c with jobsSubmitted := 0, jobsSucceeded := 0, jobsFailed := 0
         , totalProcessingTime := 0, processedJobs := 0
         , lastResetTime := now }

/-- `Collector.GetJobsSubmitted`. -/
def Collector.GetJobsSubmitted (c : Collector) : Nat := c.jobsSubmitted

/-- The error values produced by the manager API.  The Go code builds them
with `fmt.Errorf`; `message` below records the exact format strings. -/
inductive PipelineError where
  | alreadyStarted
  | queueTimeout
  | shuttingDown
deriving Repr, DecidableEq

/-- The Go error strings of the three manager API errors. -/
def PipelineError.message : PipelineError → String
  | .alreadyStarted => "manager already started"
  | .queueTimeout => "timeout submitting job to queue"
  | .shuttingDown => "manager is shutting down"

/-- Pipeline manager configuration (`pipeline.Config`); the collaborator
clients (S3, Kafka producer) are modelled by the effect lists the handlers
return, so only the numeric fields remain. -/
structure Config where
  workers : Nat
  batchSize : Nat
  maxRetries : Nat
deriving Repr, DecidableEq

/-- The `MaxRetries` defaulting done at the top of `NewManager`:
a zero value is replaced by 3. -/
def normalizeConfig (c : Config) : Config :=
  if c.maxRetries = 0 then { c with maxRetries := 3 } else c

/-- Capacity of the buffered job channel created in `NewManager`:
`make(chan *Job, config.BatchSize*2)`. -/
def jobQueueCapacity (c : Config) : Nat := 2 * c.batchSize

/-- The submission deadline hard-coded in `Manager.SubmitJob`
(`time.After(5 * time.Second)`), in seconds. -/
def submitTimeoutSeconds : Nat := 5

/-- Manager state: the two buffered channels become lists, the cancellable
context a `cancelled` flag, `close(...)` a `queueClosed` flag, and each
detached retry goroutine a `(delaySeconds, retryJob)` entry in
`pendingRetries` (spawned by `Worker.handleResult`, consumed by `fireRetry`).
-/
structure MState where
  jobQueue : List Job
  resultQueue : List ProcessingResult
  pendingRetries : List (Nat × Job)
  collector : Collector
  started : Bool
  cancelled : Bool
  queueClosed : Bool
deriving Repr, DecidableEq

/-- `pipeline.NewManager`: empty queues, fresh collector, not started. -/
def NewManager (now : Nat) : MState :=
  { jobQueue := [], resultQueue := [], pendingRetries := []
  , collector := NewCollector now
  , started := false, cancelled := false, queueClosed := false }

namespace Manager

/-- `Manager.Start`: fails with the already-started error while running,
otherwise marks the manager running (worker goroutines themselves are the
separate step functions below). -/
def Start (s : MState) : MState × Except PipelineError Unit :=
  if s.started then (s, .error .alreadyStarted)
  else ({ s with started := true }, .ok ())

/-- `Manager.Stop`: a no-op success when never started; otherwise cancels the
context, closes the channels, and clears the started flag.  The detached
retry goroutines are not tracked by the manager's wait group, so
`pendingRetries` is deliberately left untouched, exactly as in the source. -/
def Stop (s : MState) : MState × Except PipelineError Unit :=
  if s.started then
    ({ s with cancelled := true, queueClosed := true, started := false }, .ok ())
  else (s, .ok ())

/-- `Manager.SubmitJob`: the three-way `select` modelled at its decision
point — a cancelled context yields the shutting-down error, room in the
bounded queue yields an enqueue plus `IncrementJobsSubmitted`, and a queue
that is (and stays, for the 5-second window) at capacity yields the
queue-timeout error. -/
def SubmitJob (cfg : Config) (s : MState) (j : Job) : MState × Except PipelineError Unit :=
  if s.cancelled then (s, .error .shuttingDown)
  else if s.jobQueue.length < jobQueueCapacity cfg then
    ({ s with jobQueue := s.jobQueue ++ [j]
            , collector := s.collector.IncrementJobsSubmitted }, .ok ())
  else (s, .error .queueTimeout)

/-- The job built by `Manager.SubmitMessage`: id `"job-<unix-nanos>"` and
attempt 1. -/
def mkJob (nano : Nat) (msg : Message) : Job :=
  { id := "job-" ++ toString nano, message := msg, attempt := 1 }

/-- `Manager.SubmitMessage`: wrap into a first-attempt job and submit. -/
def SubmitMessage (cfg : Config) (s : MState) (nano : Nat) (msg : Message) :
    MState × Except PipelineError Unit :=
  SubmitJob cfg s (mkJob nano msg)

/-- `Manager.SubmitBatch`: submits each message in turn; a per-message error
is only logged (the Go loop discards it) and the call always returns `nil`.
The nanosecond clock ticks once per message so ids stay distinct. -/
def SubmitBatch (cfg : Config) (s : MState) (nano : Nat) :
    List Message → MState × Except PipelineError Unit
  | [] => (s, .ok ())
  | msg :: rest =>
    let step := SubmitMessage cfg s nano msg
    SubmitBatch cfg step.1 (nano + 1) rest

end Manager

/-- Calendar fields of a wall-clock instant, exactly the ones the sink-key
format string `"2006/01/02/15"` (year/month/day/hour) renders. -/
structure WallTime where
  year : Nat
  month : Nat
  day : Nat
  hour : Nat
deriving Repr, DecidableEq

/-- Left-pad a decimal rendering with zeros to width `w`, as Go's reference
time layout does for each calendar component. -/
def padNat (w n : Nat) : String :=
  let s := toString n
  (List.replicate (w - s.length) '0').asString ++ s

/-- Rendering of `time.Now().Format("2006/01/02/15")`. -/
def fmtHourBucket (t : WallTime) : String :=
  padNat 4 t.year ++ "/" ++ padNat 2 t.month ++ "/" ++ padNat 2 t.day ++ "/" ++ padNat 2 t.hour

/-- The success sink key built in `handleSuccessfulResult`:
`fmt.Sprintf("processed/%s/%s.json", hourBucket, messageID)`. -/
def successKey (t : WallTime) (messageID : String) : String :=
  "processed/" ++ fmtHourBucket t ++ "/" ++ messageID ++ ".json"

/-- The failure sink key built in `handleFailedResult`:
`fmt.Sprintf("failed/%s/%s.json", hourBucket, messageID)`. -/
def failedKey (t : WallTime) (messageID : String) : String :=
  "failed/" ++ fmtHourBucket t ++ "/" ++ messageID ++ ".json"

/-- Values of the JSON error envelope: strings, or the string-to-string
metadata map. -/
inductive JsonVal where
  | str (s : String)
  | strMap (m : List (String × String))
deriving Repr, DecidableEq

/-- Abstraction of Go's RFC3339 rendering of an instant (injective in the
instant, which is all the proofs use). -/
def fmtTimestamp (t : Nat) : String := toString t

/-- Abstraction of Go's `Duration.String()` rendering. -/
def fmtDuration (d : Nat) : String := toString d

/-- The `errorData` map marshalled to the failure sink object in
`handleFailedResult`: message id, error text, failure timestamp, duration
and the attempt metadata. -/
def errorEnvelope (r : ProcessingResult) : List (String × JsonVal) :=
  [ ("message_id", .str r.messageID)
  , ("error", .str r.error)
  , ("failed_at", .str (fmtTimestamp r.processedAt))
  , ("duration", .str (fmtDuration r.processingDuration))
  , ("metadata", .strMap r.metadata) ]

/-- Payload of one sink object: raw output bytes (success path) or the
marshalled error envelope (failure path). -/
inductive SinkData where
  | raw (bytes : String)
  | jsonObj (fields : List (String × JsonVal))
deriving Repr, DecidableEq

/-- One `UploadJSON` call to the durable sink. -/
structure SinkWrite where
  bucket : String
  key : String
  data : SinkData
deriving Repr, DecidableEq

/-- One `Producer.SendMessage` call to the downstream notifier. -/
structure Notification where
  topic : String
  key : String
  value : String
  headers : List (String × String)
deriving Repr, DecidableEq

/-- Modelled from the spec: the Durable Sink collaborator (the object store
behind `s3.Client.UploadJSON`) stores bytes by key with
overwrite-on-conflict semantics (spec section 6); the concrete client in the
repository only wraps the service call, so the store itself is modelled as a
key-indexed map. -/
def Sink : Type := String → Option SinkData

/-- A `put` into the durable sink: the new object replaces any object at the
same key. -/
def sinkPut (σ : Sink) (w : SinkWrite) : Sink :=
  fun k => if k = w.key then some w.data else σ k

/-- Topic of both status notifications in the manager
(`"processing-results"`). -/
def resultsTopic : String := "processing-results"

/-- `Manager.handleSuccessfulResult`: one sink write of the output bytes at
the time-bucketed success key, one success notification, and
`IncrementJobsSucceeded`. -/
def handleSuccessfulResult (bkt : String) (t : WallTime) (r : ProcessingResult)
    (c : Collector) : SinkWrite × Notification × Collector :=
  ( { bucket := bkt, key := successKey t r.messageID, data := .raw r.outputData }
  , { topic := resultsTopic, key := r.messageID, value := r.outputData
    , headers := [ ("status", "success")
                 , ("processing_duration", fmtDuration r.processingDuration)
                 , ("processed_at", fmtTimestamp r.processedAt) ] }
  , c.IncrementJobsSucceeded )

/-- `Manager.handleFailedResult`: one sink write of the error envelope at
the failure-namespaced key, one failure notification, and
`IncrementJobsFailed`. -/
def handleFailedResult (bkt : String) (t : WallTime) (r : ProcessingResult)
    (c : Collector) : SinkWrite × Notification × Collector :=
  ( { bucket := bkt, key := failedKey t r.messageID, data := .jsonObj (errorEnvelope r) }
  , { topic := resultsTopic, key := r.messageID, value := r.error
    , headers := [ ("status", "failed")
                 , ("error", r.error)
                 , ("processing_duration", fmtDuration r.processingDuration)
                 , ("failed_at", fmtTimestamp r.processedAt) ] }
  , c.IncrementJobsFailed )

/-- `Manager.updateMetrics`: record the duration, then bump the succeeded or
failed counter according to the result. -/
def updateMetrics (r : ProcessingResult) (c : Collector) : Collector :=
  let c' := c.RecordProcessingDuration r.processingDuration
  if r.success then c'.IncrementJobsSucceeded else c'.IncrementJobsFailed

/-- `Manager.handleResult` (the result handler's dispatch): success and
failure results go to the corresponding handler. -/
def Manager.handleResult (bkt : String) (t : WallTime) (r : ProcessingResult)
    (c : Collector) : SinkWrite × Notification × Collector :=
  if r.success then handleSuccessfulResult bkt t r c
  else handleFailedResult bkt t r c

/-- One iteration of `Manager.resultHandler`, the sole consumer of the
result queue: take the next queued result, if any, and dispatch it. -/
def Manager.resultHandlerStep (bkt : String) (t : WallTime) (s : MState) :
    MState × List SinkWrite × List Notification :=
  match s.resultQueue with
  | [] => (s, [], [])
  | r :: rest =>
    let (w, n, c) := Manager.handleResult bkt t r s.collector
    ({ s with resultQueue := rest, collector := c }, [w], [n])

/-- `Worker.handleResult`: a successful result goes straight to
`handleSuccessfulResult`; a failed attempt strictly below `MaxRetries`
spawns the detached delayed resubmission
(`go func() { time.Sleep(Attempt seconds); SubmitJob(retryJob) }()`),
recorded as a pending `(delaySeconds, retryJob)` entry; a failed attempt at
`MaxRetries` goes to `handleFailedResult`.  In every branch
`updateMetrics` then runs.  The returned lists are the sink writes and
notifications performed during this call — note that the Go code never
sends on the result queue, so `resultQueue` is untouched. -/
def Worker.handleResult (cfg : Config) (bkt : String) (t : WallTime) (s : MState)
    (r : ProcessingResult) (job : Job) : MState × List SinkWrite × List Notification :=
  if r.success then
    let (w, n, c) := handleSuccessfulResult bkt t r s.collector
    ({ s with collector := updateMetrics r c }, [w], [n])
  else if job.attempt < cfg.maxRetries then
    ({ s with pendingRetries := s.pendingRetries ++ [(job.attempt, retryJobOf job)]
            , collector := updateMetrics r s.collector }, [], [])
  else
    let (w, n, c) := handleFailedResult bkt t r s.collector
    ({ s with collector := updateMetrics r c }, [w], [n])

/-- A detached retry goroutine waking up after its sleep: it removes itself
from the pending set and calls `Manager.SubmitJob` with the retry job.
Returns `none` when no retry is pending. -/
def fireRetry (cfg : Config) (s : MState) : MState × Option (Except PipelineError Unit) :=
  match s.pendingRetries with
  | [] => (s, none)
  | (_, j) :: rest =>
    let step := Manager.SubmitJob cfg { s with pendingRetries := rest } j
    (step.1, some step.2)

/-- The worker dequeuing the next job from the shared job channel. -/
def dequeueJob (s : MState) : Option (Job × MState) :=
  match s.jobQueue with
  | [] => none
  | j :: rest => some (j, { s with jobQueue := rest })

/-- The attempt numbers that occur for one logical message, following the
retry loop of `Worker.processJob` / `Worker.handleResult`: the current
attempt happens; if processing fails (`p` gives the outcome of
`Worker.processMessage`, which depends only on the message) and the attempt
number is strictly below `MaxRetries`, the retry job of the next attempt is
resubmitted and processed in turn; otherwise no further attempt occurs. -/
def runAttempts (p : Message → Bool) (maxRetries : Nat) (j : Job) : List Nat :=
  if p j.message then [j.attempt]
  else if _h : j.attempt < maxRetries then
    j.attempt :: runAttempts p maxRetries (retryJobOf j)
  else [j.attempt]
termination_by maxRetries - j.attempt
decreasing_by simp only [retryJobOf]; omega

/-- Folding `Manager.SubmitJob` over a list of jobs, recording each call's
reported outcome; used to relate the submitted-jobs counter to the history
of submissions. -/
def submitMany (cfg : Config) (s : MState) : List Job → MState × List (Except PipelineError Unit)
  | [] => (s, [])
  | j :: rest =>
    let step := Manager.SubmitJob cfg s j
    let next := submitMany cfg step.1 rest
    (next.1, step.2 :: next.2)

/-- Whether a submit call reported success. -/
def submitOk : Except PipelineError Unit → Bool
  | .ok _ => true
  | .error _ => false

/-- The `jobs_submitted` entry of `Manager.GetMetrics` (the collector's
counter copied into the returned map). -/
def Manager.GetMetricsJobsSubmitted (s : MState) : Nat :=
  s.collector.GetJobsSubmitted

/-! ### Concrete instances used by witnesses and counterexamples -/

/-- A concrete message used to instantiate universally quantified theorems. -/
def msgEx : Message :=
  { id := "msg-1", source := "api", data := "not json", headers := [] }

/-- A concrete configuration: 3 workers, batch size 5, `MaxRetries` 3. -/
def cfgEx : Config := { workers := 3, batchSize := 5, maxRetries := 3 }

/-- A concrete hour bucket. -/
def tEx : WallTime := { year := 2026, month := 10, day := 11, hour := 7 }

/-- A concrete sink bucket name. -/
def bktEx : String := "pipeline-bucket"

/-- The first-attempt job `SubmitMessage` builds for `msgEx` at nanosecond 0. -/
def jobEx : Job := Manager.mkJob 0 msgEx

/-- The same logical job at its terminal attempt (`MaxRetries` of `cfgEx`). -/
def jobTermEx : Job := { jobEx with attempt := 3 }

/-- A concrete successful processing result for `jobEx`. -/
def rSuccEx : ProcessingResult :=
  { jobID := jobEx.id, messageID := msgEx.id, success := true, error := ""
  , processedAt := 40, processingDuration := 5, outputData := "payload-out"
  , metadata := [] }

/-- A concrete failed processing result for `jobEx`. -/
def rFailEx : ProcessingResult :=
  { jobID := jobEx.id, messageID := msgEx.id, success := false, error := "boom"
  , processedAt := 40, processingDuration := 7, outputData := ""
  , metadata := [] }

/-- A fresh manager whose context is already cancelled (a manager during
shutdown). -/
def sCancelledEx : MState := { NewManager 0 with cancelled := true }

/-- A fresh manager whose job queue sits at capacity for `cfgEx`
(`2 × 5 = 10` queued jobs). -/
def sFullEx : MState := { NewManager 0 with jobQueue := List.replicate 10 jobEx }

/-- An empty durable sink. -/
def sinkEx : Sink := fun _ => none

/-- A concrete sink write. -/
def wEx1 : SinkWrite :=
  { bucket := bktEx, key := successKey tEx msgEx.id, data := .raw rSuccEx.outputData }

/-- A second concrete sink write at the same key (same message id, same hour
bucket). -/
def wEx2 : SinkWrite :=
  { bucket := bktEx, key := successKey tEx msgEx.id, data := .raw rFailEx.outputData }

/-- Counterexample run for the submitted-jobs counter, step 1: one
`SubmitMessage` call against a fresh manager. -/
def c6Submit : MState × Except PipelineError Unit :=
  Manager.SubmitMessage cfgEx (NewManager 0) 0 msgEx

/-- Step 2: the worker takes the job off the queue. -/
def c6Dequeued : MState := ((dequeueJob c6Submit.1).getD (jobEx, c6Submit.1)).2

/-- Step 3: the attempt fails, so `Worker.handleResult` schedules the
delayed resubmission. -/
def c6AfterFail : MState := (Worker.handleResult cfgEx bktEx tEx c6Dequeued rFailEx jobEx).1

/-- Step 4: the retry timer fires and resubmits through `SubmitJob`. -/
def c6Final : MState := (fireRetry cfgEx c6AfterFail).1

/-- Shutdown-leak run, step 1: a started manager with the message submitted
and dequeued by a worker. -/
def c2Running : MState :=
  ((dequeueJob (Manager.SubmitMessage cfgEx (Manager.Start (NewManager 0)).1 0 msgEx).1).getD
    (jobEx, (NewManager 0))).2

/-- Step 2: the first attempt fails, so a detached retry timer is pending. -/
def c2Pending : MState := (Worker.handleResult cfgEx bktEx tEx c2Running rFailEx jobEx).1

/-- Step 3: `Stop` is called while the retry timer is still pending. -/
def c2Stopped : MState := (Manager.Stop c2Pending).1

/-! ### Lemmas about the retry job and the retry loop -/

@[simp] theorem retryJobOf_attempt (job : Job) : (retryJobOf job).attempt = job.attempt + 1 := rfl

@[simp] theorem retryJobOf_id (job : Job) : (retryJobOf job).id = job.id := rfl

@[simp] theorem retryJobOf_message (job : Job) : (retryJobOf job).message = job.message := rfl

theorem runAttempts_eq (p : Message → Bool) (R : Nat) (j : Job) :
    runAttempts p R j =
      if p j.message then [j.attempt]
      else if j.attempt < R then j.attempt :: runAttempts p R (retryJobOf j)
      else [j.attempt] := by
  rw [runAttempts]
  by_cases hp : p j.message <;> by_cases hl : j.attempt < R <;> simp [hp, hl]

/-- For a message whose processing always fails, the attempts climb one by
one from the starting attempt up to `MaxRetries` and stop there. -/
theorem runAttempts_of_fail (p : Message → Bool) (R : Nat) :
    ∀ n (j : Job), p j.message = false → j.attempt ≤ R → R - j.attempt = n →
      runAttempts p R j = List.range' j.attempt (R - j.attempt + 1) := by
  intro n
  induction n with
  | zero =>
    intro j hp hle hn
    have hR : j.attempt = R := by omega
    rw [runAttempts_eq, hp]
    simp [hR]
  | succ n ih =>
    intro j hp hle hn
    have hlt : j.attempt < R := by omega
    rw [runAttempts_eq, hp]
    simp only [Bool.false_eq_true, if_false, if_pos hlt]
    rw [ih (retryJobOf j) (by simpa [retryJobOf_message] using hp)
          (by simp only [retryJobOf_attempt]; omega)
          (by simp only [retryJobOf_attempt]; omega)]
    simp only [retryJobOf_attempt]
    have hsplit : R - j.attempt + 1 = (R - (j.attempt + 1) + 1) + 1 := by omega
    rw [hsplit, List.range'_succ]
    congr 1

theorem runAttempts_of_success (p : Message → Bool) (R : Nat) (j : Job)
    (hp : p j.message = true) : runAttempts p R j = [j.attempt] := by
  rw [runAttempts_eq, hp]
  simp

/-!
### Claim C1
-/

/-- Claim C1: every job submitted through `SubmitMessage` starts at attempt
number 1; for a job whose processing always fails the attempt numbers are
exactly `1, 2, …, MaxRetries` — each retry increments the attempt number by
exactly 1, every attempt number stays between 1 and `MaxRetries`, exactly
`MaxRetries` attempts occur, and no further attempt is ever created. -/
theorem attempts_start_at_one_increment_and_cap
    (R : Nat) (hR : 1 ≤ R) (p : Message → Bool) (nano : Nat) (msg : Message)
    (hfail : p msg = false) :
    (Manager.mkJob nano msg).attempt = 1
      ∧ runAttempts p R (Manager.mkJob nano msg) = List.range' 1 R
      ∧ (runAttempts p R (Manager.mkJob nano msg)).length = R
      ∧ (∀ a ∈ runAttempts p R (Manager.mkJob nano msg), 1 ≤ a ∧ a ≤ R)
      ∧ ∀ i (hi : i + 1 < (runAttempts p R (Manager.mkJob nano msg)).length),
          (runAttempts p R (Manager.mkJob nano msg)).get ⟨i + 1, hi⟩
            = (runAttempts p R (Manager.mkJob nano msg)).get ⟨i, Nat.lt_of_succ_lt hi⟩ + 1 := by
  have hatt : (Manager.mkJob nano msg).attempt = 1 := rfl
  have hmsg : (Manager.mkJob nano msg).message = msg := rfl
  have hrun : runAttempts p R (Manager.mkJob nano msg) = List.range' 1 R := by
    have := runAttempts_of_fail p R (R - 1) (Manager.mkJob nano msg)
      (by rw [hmsg]; exact hfail) (by omega) (by omega)
    rw [this, hatt]
    congr 1
    omega
  refine ⟨hatt, hrun, ?_, ?_, ?_⟩
  · rw [hrun, List.length_range']
  · intro a ha
    rw [hrun] at ha
    rcases List.mem_range'_1.mp ha with ⟨h1, h2⟩
    omega
  · intro i hi
    simp only [List.get_eq_getElem, hrun]
    rw [hrun, List.length_range'] at hi
    rw [List.getElem_range', List.getElem_range']
    omega

/-- Witness for C1 at the spec's scenario (`MaxRetries = 2`, a message whose
handler always fails): exactly the two attempts 1 and 2 occur. -/
theorem attempts_start_at_one_increment_and_cap_witness :
    runAttempts (fun _ => false) 2 (Manager.mkJob 0 msgEx) = List.range' 1 2
      ∧ (runAttempts (fun _ => false) 2 (Manager.mkJob 0 msgEx)).length = 2 :=
  ⟨(attempts_start_at_one_increment_and_cap 2 (by decide) (fun _ => false) 0 msgEx rfl).2.1,
   (attempts_start_at_one_increment_and_cap 2 (by decide) (fun _ => false) 0 msgEx rfl).2.2.1⟩

/-!
### Claim C10
-/

/-- Claim C10: `Reset` zeroes the five counters, moves the period-start
marker (`lastResetTime`) to the reset instant, and leaves the collector's
original `startTime` unchanged. -/
theorem reset_zeroes_counters_preserves_start_time (c : Collector) (now : Nat) :
    (c.Reset now).jobsSubmitted = 0
      ∧ (c.Reset now).jobsSucceeded = 0
      ∧ (c.Reset now).jobsFailed = 0
      ∧ (c.Reset now).totalProcessingTime = 0
      ∧ (c.Reset now).processedJobs = 0
      ∧ (c.Reset now).lastResetTime = now
      ∧ (c.Reset now).startTime = c.startTime :=
  ⟨rfl, rfl, rfl, rfl, rfl, rfl, rfl⟩

/-!
### Claim C9
-/

/-- Claim C9: per attempt handled by the worker, a success bumps the
succeeded counter by exactly 2 (once in `handleSuccessfulResult`, once more
in `updateMetrics`); a terminal failure bumps the failed counter by exactly
2 (once in `handleFailedResult`, once in `updateMetrics`); a retried
(non-terminal) failure bumps the failed counter by exactly 1 (only
`updateMetrics`).  Hence the succeeded/failed counters do not equal the
number of terminal dispositions. -/
theorem counters_double_count_dispositions
    (cfg : Config) (bkt : String) (t : WallTime) (s : MState)
    (r : ProcessingResult) (job : Job) :
    (r.success = true →
        (Worker.handleResult cfg bkt t s r job).1.collector.jobsSucceeded
            = s.collector.jobsSucceeded + 2
          ∧ (Worker.handleResult cfg bkt t s r job).1.collector.jobsFailed
            = s.collector.jobsFailed)
      ∧ (r.success = false → cfg.maxRetries ≤ job.attempt →
          (Worker.handleResult cfg bkt t s r job).1.collector.jobsFailed
              = s.collector.jobsFailed + 2
            ∧ (Worker.handleResult cfg bkt t s r job).1.collector.jobsSucceeded
              = s.collector.jobsSucceeded)
      ∧ (r.success = false → job.attempt < cfg.maxRetries →
          (Worker.handleResult cfg bkt t s r job).1.collector.jobsFailed
              = s.collector.jobsFailed + 1
            ∧ (Worker.handleResult cfg bkt t s r job).1.collector.jobsSucceeded
              = s.collector.jobsSucceeded) := by
  refine ⟨?_, ?_, ?_⟩
  · intro hs
    simp [Worker.handleResult, hs, handleSuccessfulResult, updateMetrics,
      Collector.IncrementJobsSucceeded, Collector.RecordProcessingDuration,
      Collector.IncrementJobsFailed]
  · intro hs hterm
    simp [Worker.handleResult, hs, handleFailedResult, updateMetrics,
      Nat.not_lt.mpr hterm, Collector.IncrementJobsSucceeded,
      Collector.RecordProcessingDuration, Collector.IncrementJobsFailed]
  · intro hs hretry
    simp [Worker.handleResult, hs, hretry, updateMetrics,
      Collector.IncrementJobsSucceeded, Collector.RecordProcessingDuration,
      Collector.IncrementJobsFailed]

/-- Witness for C9: the three deltas at concrete results and attempts. -/
theorem counters_double_count_dispositions_witness :
    (Worker.handleResult cfgEx bktEx tEx (NewManager 0) rSuccEx jobEx).1.collector.jobsSucceeded
        = (NewManager 0).collector.jobsSucceeded + 2
      ∧ (Worker.handleResult cfgEx bktEx tEx (NewManager 0) rFailEx jobTermEx).1.collector.jobsFailed
        = (NewManager 0).collector.jobsFailed + 2
      ∧ (Worker.handleResult cfgEx bktEx tEx (NewManager 0) rFailEx jobEx).1.collector.jobsFailed
        = (NewManager 0).collector.jobsFailed + 1 :=
  ⟨((counters_double_count_dispositions cfgEx bktEx tEx (NewManager 0) rSuccEx jobEx).1 rfl).1,
   ((counters_double_count_dispositions cfgEx bktEx tEx (NewManager 0) rFailEx jobTermEx).2.1
      rfl (by decide)).1,
   ((counters_double_count_dispositions cfgEx bktEx tEx (NewManager 0) rFailEx jobEx).2.2
      rfl (by decide)).1⟩

/-!
### Claim C5
-/

/-- Claim C5: the job queue is bounded at `2 × BatchSize`; a submit against
a cancelled (shutting-down or stopped) manager reports the shutting-down
error; a submit whose queue is at capacity for the whole 5-second
`SubmitTimeout` window reports the queue-timeout error instead of hanging;
and `Stop` on a running manager cancels the context, so later submits take
the shutting-down branch. -/
theorem submit_bounded_timeout_and_shutdown (cfg : Config) (s : MState) (j : Job) :
    jobQueueCapacity cfg = 2 * cfg.batchSize
      ∧ submitTimeoutSeconds = 5
      ∧ (s.cancelled = true →
          Manager.SubmitJob cfg s j = (s, .error .shuttingDown))
      ∧ (s.cancelled = false → jobQueueCapacity cfg ≤ s.jobQueue.length →
          Manager.SubmitJob cfg s j = (s, .error .queueTimeout))
      ∧ (s.started = true → (Manager.Stop s).1.cancelled = true) := by
  refine ⟨rfl, rfl, ?_, ?_, ?_⟩
  · intro hc
    simp [Manager.SubmitJob, hc]
  · intro hc hfull
    simp [Manager.SubmitJob, hc, Nat.not_lt.mpr hfull]
  · intro hs
    simp [Manager.Stop, hs]

/-- Witness for C5: a cancelled manager declines with the shutting-down
error and a manager whose queue holds `2 × 5 = 10` jobs declines with the
queue-timeout error. -/
theorem submit_bounded_timeout_and_shutdown_witness :
    Manager.SubmitJob cfgEx sCancelledEx jobEx = (sCancelledEx, .error .shuttingDown)
      ∧ Manager.SubmitJob cfgEx sFullEx jobEx = (sFullEx, .error .queueTimeout) :=
  ⟨(submit_bounded_timeout_and_shutdown cfgEx sCancelledEx jobEx).2.2.1 rfl,
   (submit_bounded_timeout_and_shutdown cfgEx sFullEx jobEx).2.2.2.1 rfl (by decide)⟩

/-!
### Claim C7
-/

/-- Counterexample to C7 as stated: after `Start` then `Stop`, a second
`Start` returns no error and the manager is running again — `Stopped` is not
terminal in the code, because `Stop` resets the started flag. -/
theorem restart_after_stop_succeeds :
    (Manager.Start ((Manager.Stop ((Manager.Start (NewManager 0)).1)).1)).2 = .ok ()
      ∧ (Manager.Start ((Manager.Stop ((Manager.Start (NewManager 0)).1)).1)).1.started = true :=
  ⟨rfl, rfl⟩

/-- Claim C7 as amended: `Start` fails with the already-started error while
running and succeeds from any non-started state; `Stop` is a no-op success
when never started; `Stop` always leaves the started flag false — so a
subsequent `Start` succeeds again and the manager does return to Running
(restart is not prevented by the lifecycle API, even though the closed
queues make a restarted manager inoperable). -/
theorem lifecycle_state_machine (s : MState) :
    (s.started = true → Manager.Start s = (s, .error .alreadyStarted))
      ∧ (s.started = false → Manager.Stop s = (s, .ok ()))
      ∧ (Manager.Stop s).1.started = false
      ∧ (s.started = false →
          (Manager.Start s).2 = .ok () ∧ (Manager.Start s).1.started = true) := by
  refine ⟨?_, ?_, ?_, ?_⟩
  · intro hs
    simp [Manager.Start, hs]
  · intro hs
    simp [Manager.Stop, hs]
  · by_cases hs : s.started <;> simp [Manager.Stop, hs]
  · intro hs
    simp [Manager.Start, hs]

/-- Witness for C7 (amended): a never-started manager stops as a no-op and a
started manager declines a second `Start`. -/
theorem lifecycle_state_machine_witness :
    Manager.Stop (NewManager 0) = (NewManager 0, .ok ())
      ∧ Manager.Start ((Manager.Start (NewManager 0)).1)
          = ((Manager.Start (NewManager 0)).1, .error .alreadyStarted) :=
  ⟨(lifecycle_state_machine (NewManager 0)).2.1 rfl,
   (lifecycle_state_machine ((Manager.Start (NewManager 0)).1)).1 rfl⟩

/-!
### Claim C4
-/

/-- Counterexample to C4 as stated: against a shutting-down manager,
`SubmitMessage` reports the declined submit but `SubmitBatch` of the very
same message still returns success — the per-message error is only logged
inside the batch loop. -/
theorem batch_decline_not_reported :
    (Manager.SubmitBatch cfgEx sCancelledEx 0 [msgEx]).2 = .ok ()
      ∧ (Manager.SubmitMessage cfgEx sCancelledEx 0 msgEx).2 = .error .shuttingDown :=
  ⟨rfl, rfl⟩

/-- Claim C4 as amended: `SubmitMessage` always reports the outcome of the
underlying enqueue to the caller, but `SubmitBatch` returns success
unconditionally, so a declined message inside a batch is logged and not
reported. -/
theorem submit_decline_reporting (cfg : Config) (s : MState) (nano : Nat)
    (msg : Message) (msgs : List Message) :
    (Manager.SubmitMessage cfg s nano msg).2
        = (Manager.SubmitJob cfg s (Manager.mkJob nano msg)).2
      ∧ (Manager.SubmitBatch cfg s nano msgs).2 = .ok () := by
  refine ⟨rfl, ?_⟩
  induction msgs generalizing s nano with
  | nil => rfl
  | cons m rest ih => exact ih _ _

/-!
### Claim C6
-/

theorem updateMetrics_jobsSubmitted (r : ProcessingResult) (c : Collector) :
    (updateMetrics r c).jobsSubmitted = c.jobsSubmitted := by
  unfold updateMetrics
  split_ifs <;> rfl

theorem submitJob_jobsSubmitted_delta (cfg : Config) (s : MState) (j : Job) :
    (Manager.SubmitJob cfg s j).1.collector.jobsSubmitted
      = s.collector.jobsSubmitted
        + (if submitOk (Manager.SubmitJob cfg s j).2 then 1 else 0) := by
  unfold Manager.SubmitJob
  by_cases hc : s.cancelled
  · simp [hc, submitOk]
  · by_cases hl : s.jobQueue.length < jobQueueCapacity cfg
    · simp [hc, hl, submitOk, Collector.IncrementJobsSubmitted]
    · simp [hc, hl, submitOk]

theorem submitMany_jobsSubmitted (cfg : Config) (js : List Job) : ∀ s : MState,
    (submitMany cfg s js).1.collector.jobsSubmitted
      = s.collector.jobsSubmitted + (submitMany cfg s js).2.countP submitOk := by
  induction js with
  | nil => intro s; simp [submitMany]
  | cons j rest ih =>
    intro s
    simp only [submitMany, List.countP_cons]
    rw [ih, submitJob_jobsSubmitted_delta]
    cases hok : submitOk (Manager.SubmitJob cfg s j).2 <;> simp [hok]
    omega

/-- Counterexample to C6 as stated: a run with exactly one `Submit*` call
(`c6Submit`, which returned no error) in which the first attempt fails and
the retry timer resubmits through `SubmitJob` — the `jobs_submitted` metric
then reads 2, not 1. -/
theorem jobs_submitted_exceeds_accepted_calls :
    Manager.GetMetricsJobsSubmitted c6Final = 2
      ∧ c6Submit.2 = .ok ()
      ∧ (2 : Nat) ≠ 1 :=
  ⟨rfl, rfl, by decide⟩

/-- Claim C6 as amended: the `jobs_submitted` metric counts successful
`SubmitJob` enqueues — one per accepted message of a single or batch submit
and one per retry resubmission — while result handling never changes it; it
therefore need not equal the number of error-free `Submit*` calls. -/
theorem jobs_submitted_counts_enqueues (cfg : Config) (s : MState) (js : List Job)
    (bkt : String) (t : WallTime) (r : ProcessingResult) (job : Job) :
    Manager.GetMetricsJobsSubmitted (submitMany cfg s js).1
        = Manager.GetMetricsJobsSubmitted s + (submitMany cfg s js).2.countP submitOk
      ∧ (Worker.handleResult cfg bkt t s r job).1.collector.jobsSubmitted
        = s.collector.jobsSubmitted := by
  constructor
  · exact submitMany_jobsSubmitted cfg js s
  · unfold Worker.handleResult
    split_ifs <;>
      simp [updateMetrics_jobsSubmitted, handleSuccessfulResult, handleFailedResult,
        Collector.IncrementJobsSucceeded, Collector.IncrementJobsFailed]

/-!
### Claim C8
-/

theorem successKey_head (t : WallTime) (m : String) :
    ((successKey t m).data).head? = some 'p' := by
  simp only [successKey, String.data_append, List.append_assoc]
  rfl

theorem failedKey_head (t : WallTime) (m : String) :
    ((failedKey t m).data).head? = some 'f' := by
  simp only [failedKey, String.data_append, List.append_assoc]
  rfl

/-- Success keys and failure keys live in disjoint namespaces. -/
theorem successKey_ne_failedKey (t t' : WallTime) (m m' : String) :
    successKey t m ≠ failedKey t' m' := by
  intro h
  have h1 := successKey_head t m
  rw [h, failedKey_head] at h1
  exact absurd h1 (by decide)

/-- Claim C8: a successful result is written to the durable sink at the
deterministic key derived from the hour bucket of the write and the message
id, with overwrite semantics (two writes at the same key leave one object,
the later one, and touch no other key); a terminal failure is written under
the distinct failure-namespaced key, and its envelope carries the message
id, error detail, failure timestamp, duration and metadata. -/
theorem sink_keys_and_failure_envelope
    (bkt : String) (t t' : WallTime) (r : ProcessingResult) (c : Collector)
    (σ : Sink) (w₁ w₂ : SinkWrite) (m m' : String) :
    (handleSuccessfulResult bkt t r c).1
        = { bucket := bkt, key := successKey t r.messageID, data := .raw r.outputData }
      ∧ (handleFailedResult bkt t r c).1
        = { bucket := bkt, key := failedKey t r.messageID
          , data := .jsonObj (errorEnvelope r) }
      ∧ ("message_id", JsonVal.str r.messageID) ∈ errorEnvelope r
      ∧ ("error", JsonVal.str r.error) ∈ errorEnvelope r
      ∧ ("failed_at", JsonVal.str (fmtTimestamp r.processedAt)) ∈ errorEnvelope r
      ∧ ("duration", JsonVal.str (fmtDuration r.processingDuration)) ∈ errorEnvelope r
      ∧ ("metadata", JsonVal.strMap r.metadata) ∈ errorEnvelope r
      ∧ (w₁.key = w₂.key →
          sinkPut (sinkPut σ w₁) w₂ w₂.key = some w₂.data
            ∧ ∀ k, k ≠ w₂.key → sinkPut (sinkPut σ w₁) w₂ k = σ k)
      ∧ successKey t m ≠ failedKey t' m' := by
  refine ⟨rfl, rfl, ?_, ?_, ?_, ?_, ?_, ?_, successKey_ne_failedKey t t' m m'⟩
  · simp [errorEnvelope]
  · simp [errorEnvelope]
  · simp [errorEnvelope]
  · simp [errorEnvelope]
  · simp [errorEnvelope]
  · intro hk
    constructor
    · simp [sinkPut]
    · intro k hkne
      have hk1 : ¬ k = w₁.key := by rw [hk]; exact hkne
      simp [sinkPut, hkne, hk1]

/-- Witness for C8: two writes of the same message id within the same hour
bucket overwrite to a single object, the later one. -/
theorem sink_keys_and_failure_envelope_witness :
    sinkPut (sinkPut sinkEx wEx1) wEx2 wEx2.key = some wEx2.data :=
  ((sink_keys_and_failure_envelope bktEx tEx tEx rFailEx (NewCollector 0) sinkEx
      wEx1 wEx2 msgEx.id msgEx.id).2.2.2.2.2.2.2.1 rfl).1

/-!
### Claim C3
-/

/-- Counterexample to C3 as stated: handling a concrete successful attempt
leaves the result queue exactly as it was (empty) — no `ProcessingResult` is
ever sent to it — while the success sink write has already happened inside
the worker's own call. -/
theorem worker_never_sends_to_result_queue :
    (Worker.handleResult cfgEx bktEx tEx (NewManager 0) rSuccEx jobEx).1.resultQueue = []
      ∧ (Worker.handleResult cfgEx bktEx tEx (NewManager 0) rSuccEx jobEx).2.1
        = [{ bucket := bktEx, key := successKey tEx rSuccEx.messageID
           , data := .raw rSuccEx.outputData }]
      ∧ ¬ rSuccEx ∈ (Worker.handleResult cfgEx bktEx tEx (NewManager 0) rSuccEx jobEx).1.resultQueue := by
  refine ⟨rfl, rfl, ?_⟩
  intro hmem
  rw [show (Worker.handleResult cfgEx bktEx tEx (NewManager 0) rSuccEx jobEx).1.resultQueue
        = ([] : List ProcessingResult) from rfl] at hmem
  exact (List.not_mem_nil rSuccEx) hmem

/-- Claim C3 as amended: the worker performs the sink writes and
notifications directly on its own call path via the manager's
success/failure handlers and never sends on the Result Queue (the queue is
left untouched in every branch); the Result Handler loop is the sole
consumer of that queue and would dispatch a queued result, but no producer
exists, so the queue stays empty. -/
theorem worker_handles_results_directly
    (cfg : Config) (bkt : String) (t : WallTime) (s : MState)
    (r : ProcessingResult) (job : Job) :
    (Worker.handleResult cfg bkt t s r job).1.resultQueue = s.resultQueue
      ∧ (r.success = true →
          (Worker.handleResult cfg bkt t s r job).2.1
            = [{ bucket := bkt, key := successKey t r.messageID
               , data := .raw r.outputData }])
      ∧ (r.success = false → cfg.maxRetries ≤ job.attempt →
          (Worker.handleResult cfg bkt t s r job).2.1
            = [{ bucket := bkt, key := failedKey t r.messageID
               , data := .jsonObj (errorEnvelope r) }])
      ∧ (Manager.resultHandlerStep bkt t
            { s with resultQueue := r :: s.resultQueue }).1.resultQueue = s.resultQueue := by
  refine ⟨?_, ?_, ?_, rfl⟩
  · unfold Worker.handleResult
    split_ifs <;> rfl
  · intro hs
    simp [Worker.handleResult, hs, handleSuccessfulResult]
  · intro hs hterm
    simp [Worker.handleResult, hs, Nat.not_lt.mpr hterm, handleFailedResult]

/-- Witness for C3 (amended): the concrete successful attempt emits exactly
the success sink write from the worker's call. -/
theorem worker_handles_results_directly_witness :
    (Worker.handleResult cfgEx bktEx tEx (NewManager 0) rSuccEx jobEx).2.1
      = [{ bucket := bktEx, key := successKey tEx rSuccEx.messageID
         , data := .raw rSuccEx.outputData }] :=
  (worker_handles_results_directly cfgEx bktEx tEx (NewManager 0) rSuccEx jobEx).2.1 rfl

/-!
### Claim C2
-/

/-- Claim C2 (identified code bug, spec section 9): the failed first attempt
does schedule a delayed resubmission with the same job id and message,
attempt number 2 and a linear one-attempt-unit delay, without occupying the
worker — but the timer task is *not* cancellable: `Stop` leaves the pending
retry in place, and when the timer later fires it submits into the
shut-down manager (in the Go code, into a cancelled context racing a closed
channel). -/
theorem pending_retry_survives_stop :
    c2Pending.pendingRetries = [(1, retryJobOf jobEx)]
      ∧ (retryJobOf jobEx).id = jobEx.id
      ∧ (retryJobOf jobEx).message = jobEx.message
      ∧ (retryJobOf jobEx).attempt = 2
      ∧ c2Stopped.cancelled = true
      ∧ c2Stopped.pendingRetries = [(1, retryJobOf jobEx)]
      ∧ (fireRetry cfgEx c2Stopped).2 = some (.error .shuttingDown) :=
  ⟨rfl, rfl, rfl, rfl, rfl, rfl, rfl⟩

end Pipeline
